import Mathlib

/-
  Verification development for the mobility-scenario calculator of
  src/app.py (a-videgain/jeu-mob).  The computational core of the
  application is embedded below over the rationals: every arithmetic
  expression is translated term by term from the Python source, fallible
  operations (dictionary key lookup, division by a runtime value) are
  modelled with Except, and the Python dictionaries of the session state
  become records whose fields are the keys actually present.
-/

/-- Runtime errors that the embedded Python code can raise: a missing
dictionary key (KeyError) and a division by zero (ZeroDivisionError). -/
inductive PyError where
  | keyError : String → PyError
  | zeroDivisionError : PyError
deriving DecidableEq

/-- Python dictionary read d[key]: returns the value when the key is
present and raises KeyError otherwise. -/
def dictGet (v : Option ℚ) (key : String) : Except PyError ℚ :=
  match v with
  | some x => Except.ok x
  | none => Except.error (PyError.keyError key)

/-- Python dict.update for a single key: a key present in the
modification dictionary overrides the base value. -/
def dictUpdateKey (base mods : Option ℚ) : Option ℚ :=
  match mods with
  | some v => some v
  | none => base

/-- A mode-indexed dictionary of rationals with the six keys of
st.session_state.km_2025_territoire (src/app.py lines 32-39), in their
insertion order.  The same shape is reused for every dictionary indexed
by the six modes (per-mode km, per-mode shares, per-mode CO2 detail). -/
structure KmDict where
  voiture : ℚ
  bus : ℚ
  train : ℚ
  velo : ℚ
  avion : ℚ
  marche : ℚ
deriving DecidableEq

/-- Python sum(km_dict.values()), in insertion order of the keys. -/
def KmDict.total (km : KmDict) : ℚ :=
  km.voiture + km.bus + km.train + km.velo + km.avion + km.marche

/-- The keys of the parc_config argument read by calculer_bilan_territoire
(src/app.py lines 131, 132, 136). -/
structure ParcConfig where
  part_thermique : ℚ
  part_ve : ℚ
  taux_occupation : ℚ
deriving DecidableEq

/-- The keys of the parc_velo_config argument read by
calculer_bilan_territoire (src/app.py lines 152, 153). -/
structure ParcVeloConfig where
  part_elec : ℚ
  part_classique : ℚ
deriving DecidableEq

/-- The keys of the parc_bus_config argument read by
calculer_bilan_territoire (src/app.py lines 144, 145). -/
structure ParcBusConfig where
  part_thermique : ℚ
  part_elec : ℚ
deriving DecidableEq

/-- The keys of the emissions_parc argument read by
calculer_bilan_territoire: st.session_state.emissions (src/app.py lines
78-87) together with the key emission_thermique that both call sites
merge in (src/app.py lines 228, 233). -/
structure EmissionsParc where
  emission_thermique : ℚ
  voiture_electrique : ℚ
  bus_thermique : ℚ
  bus_electrique : ℚ
  train : ℚ
  velo_elec : ℚ
  velo_classique : ℚ
  avion : ℚ
  marche : ℚ
deriving DecidableEq

/-- Return value of calculer_bilan_territoire (src/app.py lines 165-169),
with the detail_par_mode dictionary flattened into six fields. -/
structure Bilan where
  co2_total_territoire : ℚ
  km_total_territoire : ℚ
  detail_voiture : ℚ
  detail_bus : ℚ
  detail_train : ℚ
  detail_velo : ℚ
  detail_avion : ℚ
  detail_marche : ℚ
deriving DecidableEq

/-- Embedding of calculer_bilan_territoire (src/app.py lines 108-169).
The Python loop over the six-key dictionary km_territoire is unrolled in
insertion order (voiture, bus, train, velo, avion, marche); the else
branch of the mode dispatch is dead for this key set.  The division by
parc_config.taux_occupation on line 136 raises ZeroDivisionError in
Python when the rate is 0, which the embedding models as an error
value. -/
def calculer_bilan_territoire (km_territoire : KmDict) (emissions_parc : EmissionsParc)
    (parc_config : ParcConfig) (parc_velo_config : ParcVeloConfig)
    (parc_bus_config : ParcBusConfig) (reduction_poids : ℚ) : Except PyError Bilan :=
  let facteur_allegement := 1 - reduction_poids * (7 / 10) / 100
  let emission_thermique_ajustee := emissions_parc.emission_thermique * facteur_allegement
  let emission_electrique_ajustee := emissions_parc.voiture_electrique * facteur_allegement
  let emission_voiture :=
    parc_config.part_thermique / 100 * emission_thermique_ajustee +
    parc_config.part_ve / 100 * emission_electrique_ajustee
  if parc_config.taux_occupation = 0 then
    Except.error PyError.zeroDivisionError
  else
    let emission_par_personne := emission_voiture / parc_config.taux_occupation
    let co2_voiture := km_territoire.voiture * 1000000 * emission_par_personne / 1000 / 1000
    let emission_bus :=
      parc_bus_config.part_thermique / 100 * emissions_parc.bus_thermique +
      parc_bus_config.part_elec / 100 * emissions_parc.bus_electrique
    let co2_bus := km_territoire.bus * 1000000 * emission_bus / 1000 / 1000
    let co2_train := km_territoire.train * 1000000 * emissions_parc.train / 1000 / 1000
    let emission_velo :=
      parc_velo_config.part_elec / 100 * emissions_parc.velo_elec +
      parc_velo_config.part_classique / 100 * emissions_parc.velo_classique
    let co2_velo := km_territoire.velo * 1000000 * emission_velo / 1000 / 1000
    let co2_avion := km_territoire.avion * 1000000 * emissions_parc.avion / 1000 / 1000
    let co2_marche := km_territoire.marche * 1000000 * emissions_parc.marche / 1000 / 1000
    Except.ok
      { co2_total_territoire := co2_voiture + co2_bus + co2_train + co2_velo + co2_avion + co2_marche
        km_total_territoire := km_territoire.total
        detail_voiture := co2_voiture
        detail_bus := co2_bus
        detail_train := co2_train
        detail_velo := co2_velo
        detail_avion := co2_avion
        detail_marche := co2_marche }

/-- Embedding of calculer_parts_modales (src/app.py lines 171-176):
per-mode share in percent, with all shares defined as 0 when the total
is 0. -/
def calculer_parts_modales (km_dict : KmDict) : KmDict :=
  let km_total := km_dict.total
  if km_total = 0 then
    { voiture := 0, bus := 0, train := 0, velo := 0, avion := 0, marche := 0 }
  else
    { voiture := km_dict.voiture / km_total * 100
      bus := km_dict.bus / km_total * 100
      train := km_dict.train / km_total * 100
      velo := km_dict.velo / km_total * 100
      avion := km_dict.avion / km_total * 100
      marche := km_dict.marche / km_total * 100 }

/-- st.session_state.emissions (src/app.py lines 78-87): the eight keys
of the session emission table (emission_thermique is not among them; it
is merged in at the two calculer_bilan_territoire call sites). -/
structure Emissions8 where
  voiture_electrique : ℚ
  bus_thermique : ℚ
  bus_electrique : ℚ
  train : ℚ
  velo_elec : ℚ
  velo_classique : ℚ
  avion : ℚ
  marche : ℚ
deriving DecidableEq

/-- Python merge of the session emission table with the key
emission_thermique, as done on src/app.py line 233 with a dict splat and
on lines 227-228 with copy followed by key assignment. -/
def emissions_avec_thermique (em : Emissions8) (emission_thermique : ℚ) : EmissionsParc :=
  { emission_thermique := emission_thermique
    voiture_electrique := em.voiture_electrique
    bus_thermique := em.bus_thermique
    bus_electrique := em.bus_electrique
    train := em.train
    velo_elec := em.velo_elec
    velo_classique := em.velo_classique
    avion := em.avion
    marche := em.marche }

/-- st.session_state.parc_2025 (src/app.py lines 52-58). -/
structure Parc2025 where
  part_ve : ℚ
  part_thermique : ℚ
  emission_thermique : ℚ
  taux_occupation : ℚ
  temps_stationnement : ℚ
deriving DecidableEq

/-- st.session_state.parc_velo_2025 (src/app.py lines 61-66). -/
structure ParcVelo2025 where
  part_elec : ℚ
  part_classique : ℚ
  emission_elec : ℚ
  emission_classique : ℚ
deriving DecidableEq

/-- st.session_state.parc_bus_2025 (src/app.py lines 69-74). -/
structure ParcBus2025 where
  part_elec : ℚ
  part_thermique : ℚ
  emission_thermique : ℚ
  emission_electrique : ℚ
deriving DecidableEq

/-- The scenario lever dictionary st.session_state.scenario (src/app.py
lines 90-104).  Each field is an Option because the dictionary built by
scenario_ref in the waterfall decomposition (src/app.py lines 931-943)
does not contain every key; a missing key is none and reading it raises
KeyError. -/
structure ScenarioDict where
  reduction_km : Option ℚ
  report_velo : Option ℚ
  report_bus : Option ℚ
  report_train : Option ℚ
  report_train_avion : Option ℚ
  taux_remplissage : Option ℚ
  part_ve : Option ℚ
  part_thermique : Option ℚ
  part_velo_elec : Option ℚ
  part_velo_classique : Option ℚ
  part_bus_elec : Option ℚ
  part_bus_thermique : Option ℚ
  reduction_poids : Option ℚ
deriving DecidableEq

/-- A scenario dictionary containing all thirteen keys, as initialised on
src/app.py lines 90-104. -/
def ScenarioDict.full (r rv rb rt ra tr pv pt pve pvc pbe pbt rp : ℚ) : ScenarioDict :=
  { reduction_km := some r
    report_velo := some rv
    report_bus := some rb
    report_train := some rt
    report_train_avion := some ra
    taux_remplissage := some tr
    part_ve := some pv
    part_thermique := some pt
    part_velo_elec := some pve
    part_velo_classique := some pvc
    part_bus_elec := some pbe
    part_bus_thermique := some pbt
    reduction_poids := some rp }

/-- Python dict.update applied key by key (used by
calculer_scenario_partiel, src/app.py line 948). -/
def ScenarioDict.update (base mods : ScenarioDict) : ScenarioDict :=
  { reduction_km := dictUpdateKey base.reduction_km mods.reduction_km
    report_velo := dictUpdateKey base.report_velo mods.report_velo
    report_bus := dictUpdateKey base.report_bus mods.report_bus
    report_train := dictUpdateKey base.report_train mods.report_train
    report_train_avion := dictUpdateKey base.report_train_avion mods.report_train_avion
    taux_remplissage := dictUpdateKey base.taux_remplissage mods.taux_remplissage
    part_ve := dictUpdateKey base.part_ve mods.part_ve
    part_thermique := dictUpdateKey base.part_thermique mods.part_thermique
    part_velo_elec := dictUpdateKey base.part_velo_elec mods.part_velo_elec
    part_velo_classique := dictUpdateKey base.part_velo_classique mods.part_velo_classique
    part_bus_elec := dictUpdateKey base.part_bus_elec mods.part_bus_elec
    part_bus_thermique := dictUpdateKey base.part_bus_thermique mods.part_bus_thermique
    reduction_poids := dictUpdateKey base.reduction_poids mods.reduction_poids }

/-- The slice of st.session_state read by the scenario computation. -/
structure SessionState where
  km_2025_territoire : KmDict
  parc_2025 : Parc2025
  parc_velo_2025 : ParcVelo2025
  parc_bus_2025 : ParcBus2025
  emissions : Emissions8
  scenario_levers : ScenarioDict
deriving DecidableEq

/-- Return value of calculer_2050 (src/app.py lines 259-266). -/
structure Resultats2050 where
  km_2050_territoire : KmDict
  parts_2050 : KmDict
  bilan_2050 : Bilan
  bilan_2025 : Bilan
  reduction_pct : ℚ
  objectif_atteint : Bool
deriving DecidableEq

/-- Embedding of calculer_2050 (src/app.py lines 178-266).  Dictionary
reads of the scenario levers are performed in source order through
dictGet, so a missing key surfaces as the corresponding KeyError.  The
two calculer_bilan_territoire calls can also fail (ZeroDivisionError);
all failures propagate as in Python. -/
def calculer_2050 (s : SessionState) : Except PyError Resultats2050 :=
  Except.bind (dictGet s.scenario_levers.reduction_km "reduction_km") fun reduction_km =>
  let facteur_sobriete := 1 + reduction_km / 100
  let km_2025_apres_sobriete : KmDict :=
    { voiture := s.km_2025_territoire.voiture * facteur_sobriete
      bus := s.km_2025_territoire.bus * facteur_sobriete
      train := s.km_2025_territoire.train * facteur_sobriete
      velo := s.km_2025_territoire.velo * facteur_sobriete
      avion := s.km_2025_territoire.avion * facteur_sobriete
      marche := s.km_2025_territoire.marche * facteur_sobriete }
  let km_voiture_apres_sobriete := km_2025_apres_sobriete.voiture
  let km_avion_apres_sobriete := km_2025_apres_sobriete.avion
  Except.bind (dictGet s.scenario_levers.report_velo "report_velo") fun report_velo =>
  let km_transferes_velo := km_voiture_apres_sobriete * report_velo / 100
  Except.bind (dictGet s.scenario_levers.report_bus "report_bus") fun report_bus =>
  let km_transferes_bus := km_voiture_apres_sobriete * report_bus / 100
  Except.bind (dictGet s.scenario_levers.report_train "report_train") fun report_train =>
  let km_transferes_train_voiture := km_voiture_apres_sobriete * report_train / 100
  Except.bind (dictGet s.scenario_levers.report_train_avion "report_train_avion") fun report_train_avion =>
  let km_transferes_train_avion := km_avion_apres_sobriete * report_train_avion / 100
  let km_2050_territoire : KmDict :=
    { voiture := km_voiture_apres_sobriete - km_transferes_velo - km_transferes_bus -
        km_transferes_train_voiture
      bus := km_2025_apres_sobriete.bus + km_transferes_bus
      train := km_2025_apres_sobriete.train + km_transferes_train_voiture + km_transferes_train_avion
      velo := km_2025_apres_sobriete.velo + km_transferes_velo
      avion := km_avion_apres_sobriete - km_transferes_train_avion
      marche := km_2025_apres_sobriete.marche }
  Except.bind (dictGet s.scenario_levers.part_thermique "part_thermique") fun part_thermique_2050 =>
  Except.bind (dictGet s.scenario_levers.part_ve "part_ve") fun part_ve_2050 =>
  Except.bind (dictGet s.scenario_levers.taux_remplissage "taux_remplissage") fun taux_remplissage =>
  let parc_2050 : ParcConfig :=
    { part_thermique := part_thermique_2050
      part_ve := part_ve_2050
      taux_occupation := taux_remplissage }
  Except.bind (dictGet s.scenario_levers.part_velo_elec "part_velo_elec") fun part_velo_elec =>
  Except.bind (dictGet s.scenario_levers.part_velo_classique "part_velo_classique") fun part_velo_classique =>
  let parc_velo_2050 : ParcVeloConfig :=
    { part_elec := part_velo_elec
      part_classique := part_velo_classique }
  Except.bind (dictGet s.scenario_levers.part_bus_elec "part_bus_elec") fun part_bus_elec =>
  Except.bind (dictGet s.scenario_levers.part_bus_thermique "part_bus_thermique") fun part_bus_thermique =>
  let parc_bus_2050 : ParcBusConfig :=
    { part_thermique := part_bus_thermique
      part_elec := part_bus_elec }
  let emissions_2050 := emissions_avec_thermique s.emissions s.parc_2025.emission_thermique
  Except.bind
    (calculer_bilan_territoire s.km_2025_territoire
      (emissions_avec_thermique s.emissions s.parc_2025.emission_thermique)
      { part_thermique := s.parc_2025.part_thermique
        part_ve := s.parc_2025.part_ve
        taux_occupation := s.parc_2025.taux_occupation }
      { part_elec := s.parc_velo_2025.part_elec
        part_classique := s.parc_velo_2025.part_classique }
      { part_thermique := s.parc_bus_2025.part_thermique
        part_elec := s.parc_bus_2025.part_elec }
      0) fun bilan_2025 =>
  Except.bind (dictGet s.scenario_levers.reduction_poids "reduction_poids") fun reduction_poids =>
  Except.bind
    (calculer_bilan_territoire km_2050_territoire emissions_2050 parc_2050 parc_velo_2050
      parc_bus_2050 reduction_poids) fun bilan_2050 =>
  let reduction_pct :=
    if bilan_2025.co2_total_territoire > 0 then
      (bilan_2025.co2_total_territoire - bilan_2050.co2_total_territoire) /
        bilan_2025.co2_total_territoire * 100
    else 0
  let parts_2050 := calculer_parts_modales km_2050_territoire
  Except.ok
    { km_2050_territoire := km_2050_territoire
      parts_2050 := parts_2050
      bilan_2050 := bilan_2050
      bilan_2025 := bilan_2025
      reduction_pct := reduction_pct
      objectif_atteint := decide (reduction_pct ≥ 80) }

/-- The reference scenario dictionary of the waterfall decomposition
(src/app.py lines 931-943).  The source dict literal contains no
part_bus_elec and no part_bus_thermique key, hence the two none
fields. -/
def scenario_ref (s : SessionState) : ScenarioDict :=
  { reduction_km := some 0
    report_velo := some 0
    report_bus := some 0
    report_train := some 0
    report_train_avion := some 0
    taux_remplissage := some s.parc_2025.taux_occupation
    part_ve := some s.parc_2025.part_ve
    part_thermique := some s.parc_2025.part_thermique
    part_velo_elec := some s.parc_velo_2025.part_elec
    part_velo_classique := some s.parc_velo_2025.part_classique
    part_bus_elec := none
    part_bus_thermique := none
    reduction_poids := some 0 }

/-- Embedding of calculer_scenario_partiel (src/app.py lines 946-962)
with the session-state mutation made explicit: the first component is
the session state after the call, the second the returned value.  The
function saves st.session_state.scenario, overwrites it with the merged
temporary dictionary, calls calculer_2050 and then restores the saved
dictionary.  There is no try/finally in the source: when calculer_2050
raises, the restore line never runs and the temporary dictionary stays
installed. -/
def calculer_scenario_partiel (s : SessionState) (modifications : ScenarioDict) :
    SessionState × Except PyError ℚ :=
  let scenario_temp := (scenario_ref s).update modifications
  let scenario_actuel := s.scenario_levers
  let s_applique : SessionState := { s with scenario_levers := scenario_temp }
  match calculer_2050 s_applique with
  | Except.error e => (s_applique, Except.error e)
  | Except.ok resultats_temp =>
      ({ s_applique with scenario_levers := scenario_actuel },
        Except.ok resultats_temp.bilan_2050.co2_total_territoire)

/-- The modification dictionary of the first waterfall invocation
(src/app.py lines 965-968): only the two car electrification keys. -/
def modifications_elec_voiture (pv pt : ℚ) : ScenarioDict :=
  { reduction_km := none
    report_velo := none
    report_bus := none
    report_train := none
    report_train_avion := none
    taux_remplissage := none
    part_ve := some pv
    part_thermique := some pt
    part_velo_elec := none
    part_velo_classique := none
    part_bus_elec := none
    part_bus_thermique := none
    reduction_poids := none }

/-- The initial session state (src/app.py lines 26-104). -/
def etat_initial : SessionState :=
  { km_2025_territoire :=
      { voiture := 3275, bus := 55, train := 210, velo := 140, avion := 900, marche := 70 }
    parc_2025 :=
      { part_ve := 3, part_thermique := 97, emission_thermique := 218,
        taux_occupation := 13 / 10, temps_stationnement := 95 }
    parc_velo_2025 :=
      { part_elec := 15, part_classique := 85, emission_elec := 22, emission_classique := 5 }
    parc_bus_2025 :=
      { part_elec := 5, part_thermique := 95, emission_thermique := 127,
        emission_electrique := 25 }
    emissions :=
      { voiture_electrique := 103, bus_thermique := 127, bus_electrique := 25,
        train := 51 / 10, velo_elec := 22, velo_classique := 5, avion := 225, marche := 0 }
    scenario_levers :=
      ScenarioDict.full 0 0 0 0 0 (13 / 10) 3 97 15 85 5 95 0 }

/-- Claim C1: the scenario pipeline first multiplies the 2025 distance of every mode by (1 + reduction_km / 100), then computes each transferred
amount as the donor post-sobriety distance times transfer_percent / 100,
all transfers being taken from the donor post-sobriety value captured
before any transfer is applied (a frozen snapshot, not a sequential
cascade). -/
theorem sobriete_puis_report_fige
    (km : KmDict) (parc : Parc2025) (pvelo : ParcVelo2025) (pbus : ParcBus2025)
    (em : Emissions8) (r rv rb rt ra tr pv pt pve pvc pbe pbt rp : ℚ)
    (hocc : parc.taux_occupation ≠ 0) (htr : tr ≠ 0) :
    ∃ res, calculer_2050 ⟨km, parc, pvelo, pbus, em,
        ScenarioDict.full r rv rb rt ra tr pv pt pve pvc pbe pbt rp⟩ = Except.ok res ∧
      res.km_2050_territoire =
        { voiture := km.voiture * (1 + r / 100) - km.voiture * (1 + r / 100) * rv / 100 -
            km.voiture * (1 + r / 100) * rb / 100 - km.voiture * (1 + r / 100) * rt / 100
          bus := km.bus * (1 + r / 100) + km.voiture * (1 + r / 100) * rb / 100
          train := km.train * (1 + r / 100) + km.voiture * (1 + r / 100) * rt / 100 +
            km.avion * (1 + r / 100) * ra / 100
          velo := km.velo * (1 + r / 100) + km.voiture * (1 + r / 100) * rv / 100
          avion := km.avion * (1 + r / 100) - km.avion * (1 + r / 100) * ra / 100
          marche := km.marche * (1 + r / 100) } := by
  simp only [calculer_2050, dictGet, ScenarioDict.full, Except.bind, calculer_bilan_territoire,
    emissions_avec_thermique, hocc, htr, if_false]
  refine ⟨_, rfl, ?_⟩
  simp only [KmDict.mk.injEq]

/-- Witness for claim C1: the pipeline property evaluated at the initial
territory data with reduction_km = -30, 10 percent transfers from the
car to bike, bus and train, and 20 percent from plane to train. -/
theorem sobriete_puis_report_fige_temoin :
    ∃ res, calculer_2050 ⟨etat_initial.km_2025_territoire, etat_initial.parc_2025,
        etat_initial.parc_velo_2025, etat_initial.parc_bus_2025, etat_initial.emissions,
        ScenarioDict.full (-30) 10 10 10 20 (3 / 2) 50 50 50 50 50 50 10⟩ = Except.ok res ∧
      res.km_2050_territoire =
        { voiture := 6419 / 4, bus := 1071 / 4, train := 2009 / 4, velo := 1309 / 4,
          avion := 504, marche := 49 } := by
  obtain ⟨res, h1, h2⟩ := sobriete_puis_report_fige etat_initial.km_2025_territoire
    etat_initial.parc_2025 etat_initial.parc_velo_2025 etat_initial.parc_bus_2025
    etat_initial.emissions (-30) 10 10 10 20 (3 / 2) 50 50 50 50 50 50 10
    (by norm_num [etat_initial]) (by norm_num)
  refine ⟨res, h1, ?_⟩
  rw [h2]
  norm_num [etat_initial]

/-- Claim C2: conservation of distance.  For transfer percentages that
are nonnegative and sum to at most 100 per donor mode, the total of the
2050 per-mode distances equals the total of the 2025 distances times
(1 + reduction_km / 100); over the rationals the equality is exact. -/
theorem conservation_distance_totale
    (km : KmDict) (parc : Parc2025) (pvelo : ParcVelo2025) (pbus : ParcBus2025)
    (em : Emissions8) (r rv rb rt ra tr pv pt pve pvc pbe pbt rp : ℚ)
    (hocc : parc.taux_occupation ≠ 0) (htr : tr ≠ 0)
    (hrv : 0 ≤ rv) (hrb : 0 ≤ rb) (hrt : 0 ≤ rt) (hra : 0 ≤ ra)
    (hsum : rv + rb + rt ≤ 100) (hra100 : ra ≤ 100) :
    ∃ res, calculer_2050 ⟨km, parc, pvelo, pbus, em,
        ScenarioDict.full r rv rb rt ra tr pv pt pve pvc pbe pbt rp⟩ = Except.ok res ∧
      res.bilan_2050.km_total_territoire =
        res.bilan_2025.km_total_territoire * (1 + r / 100) := by
  simp only [calculer_2050, dictGet, ScenarioDict.full, Except.bind, calculer_bilan_territoire,
    emissions_avec_thermique, hocc, htr, if_false, KmDict.total]
  refine ⟨_, rfl, ?_⟩
  ring

/-- Witness for claim C2: conservation evaluated at the initial territory
data with reduction_km = -30 and transfers 10+10+10 from the car and 20
from the plane. -/
theorem conservation_distance_totale_temoin :
    ∃ res, calculer_2050 ⟨etat_initial.km_2025_territoire, etat_initial.parc_2025,
        etat_initial.parc_velo_2025, etat_initial.parc_bus_2025, etat_initial.emissions,
        ScenarioDict.full (-30) 10 10 10 20 (3 / 2) 50 50 50 50 50 50 10⟩ = Except.ok res ∧
      res.bilan_2050.km_total_territoire =
        res.bilan_2025.km_total_territoire * (1 + (-30) / 100) :=
  conservation_distance_totale etat_initial.km_2025_territoire etat_initial.parc_2025
    etat_initial.parc_velo_2025 etat_initial.parc_bus_2025 etat_initial.emissions
    (-30) 10 10 10 20 (3 / 2) 50 50 50 50 50 50 10
    (by norm_num [etat_initial]) (by norm_num)
    (by norm_num) (by norm_num) (by norm_num) (by norm_num) (by norm_num) (by norm_num)

/-- Characterization of calculer_2050 on a fully populated scenario
dictionary with nonzero occupancy rates: the computation succeeds and
the per-mode distances, the distance totals, the 2050 CO2 total and the
2050 car CO2 detail are given by the written-out arithmetic of the
source.  Shared auxiliary lemma for the claim theorems below. -/
lemma calculer_2050_aux
    (km : KmDict) (parc : Parc2025) (pvelo : ParcVelo2025) (pbus : ParcBus2025)
    (em : Emissions8) (r rv rb rt ra tr pv pt pve pvc pbe pbt rp : ℚ)
    (hocc : parc.taux_occupation ≠ 0) (htr : tr ≠ 0) :
    ∃ res, calculer_2050 ⟨km, parc, pvelo, pbus, em,
        ScenarioDict.full r rv rb rt ra tr pv pt pve pvc pbe pbt rp⟩ = Except.ok res ∧
      res.km_2050_territoire =
        { voiture := km.voiture * (1 + r / 100) - km.voiture * (1 + r / 100) * rv / 100 -
            km.voiture * (1 + r / 100) * rb / 100 - km.voiture * (1 + r / 100) * rt / 100
          bus := km.bus * (1 + r / 100) + km.voiture * (1 + r / 100) * rb / 100
          train := km.train * (1 + r / 100) + km.voiture * (1 + r / 100) * rt / 100 +
            km.avion * (1 + r / 100) * ra / 100
          velo := km.velo * (1 + r / 100) + km.voiture * (1 + r / 100) * rv / 100
          avion := km.avion * (1 + r / 100) - km.avion * (1 + r / 100) * ra / 100
          marche := km.marche * (1 + r / 100) } ∧
      res.bilan_2025.km_total_territoire =
        km.voiture + km.bus + km.train + km.velo + km.avion + km.marche ∧
      res.bilan_2050.km_total_territoire =
        (km.voiture * (1 + r / 100) - km.voiture * (1 + r / 100) * rv / 100 -
            km.voiture * (1 + r / 100) * rb / 100 - km.voiture * (1 + r / 100) * rt / 100) +
          (km.bus * (1 + r / 100) + km.voiture * (1 + r / 100) * rb / 100) +
          (km.train * (1 + r / 100) + km.voiture * (1 + r / 100) * rt / 100 +
            km.avion * (1 + r / 100) * ra / 100) +
          (km.velo * (1 + r / 100) + km.voiture * (1 + r / 100) * rv / 100) +
          (km.avion * (1 + r / 100) - km.avion * (1 + r / 100) * ra / 100) +
          km.marche * (1 + r / 100) ∧
      res.bilan_2050.co2_total_territoire =
        (km.voiture * (1 + r / 100) - km.voiture * (1 + r / 100) * rv / 100 -
            km.voiture * (1 + r / 100) * rb / 100 - km.voiture * (1 + r / 100) * rt / 100) *
            1000000 *
            ((pt / 100 * (parc.emission_thermique * (1 - rp * (7 / 10) / 100)) +
              pv / 100 * (em.voiture_electrique * (1 - rp * (7 / 10) / 100))) / tr) /
            1000 / 1000 +
          (km.bus * (1 + r / 100) + km.voiture * (1 + r / 100) * rb / 100) * 1000000 *
            (pbt / 100 * em.bus_thermique + pbe / 100 * em.bus_electrique) / 1000 / 1000 +
          (km.train * (1 + r / 100) + km.voiture * (1 + r / 100) * rt / 100 +
            km.avion * (1 + r / 100) * ra / 100) * 1000000 * em.train / 1000 / 1000 +
          (km.velo * (1 + r / 100) + km.voiture * (1 + r / 100) * rv / 100) * 1000000 *
            (pve / 100 * em.velo_elec + pvc / 100 * em.velo_classique) / 1000 / 1000 +
          (km.avion * (1 + r / 100) - km.avion * (1 + r / 100) * ra / 100) * 1000000 *
            em.avion / 1000 / 1000 +
          km.marche * (1 + r / 100) * 1000000 * em.marche / 1000 / 1000 ∧
      res.bilan_2050.detail_voiture =
        (km.voiture * (1 + r / 100) - km.voiture * (1 + r / 100) * rv / 100 -
            km.voiture * (1 + r / 100) * rb / 100 - km.voiture * (1 + r / 100) * rt / 100) *
            1000000 *
            ((pt / 100 * (parc.emission_thermique * (1 - rp * (7 / 10) / 100)) +
              pv / 100 * (em.voiture_electrique * (1 - rp * (7 / 10) / 100))) / tr) /
            1000 / 1000 := by
  simp only [calculer_2050, dictGet, ScenarioDict.full, Except.bind, calculer_bilan_territoire,
    emissions_avec_thermique, hocc, htr, if_false, KmDict.total]
  exact ⟨_, rfl, rfl, rfl, rfl, rfl, rfl⟩

/-- Characterization of calculer_bilan_territoire at a nonzero occupancy
rate: the computation succeeds and the car CO2 detail is the written-out
arithmetic of the source.  Shared auxiliary lemma. -/
lemma calculer_bilan_territoire_aux
    (km : KmDict) (em : EmissionsParc) (pc : ParcConfig) (pvc : ParcVeloConfig)
    (pbc : ParcBusConfig) (rp : ℚ) (hocc : pc.taux_occupation ≠ 0) :
    ∃ b, calculer_bilan_territoire km em pc pvc pbc rp = Except.ok b ∧
      b.detail_voiture =
        km.voiture * 1000000 *
          ((pc.part_thermique / 100 * (em.emission_thermique * (1 - rp * (7 / 10) / 100)) +
            pc.part_ve / 100 * (em.voiture_electrique * (1 - rp * (7 / 10) / 100))) /
            pc.taux_occupation) / 1000 / 1000 := by
  simp only [calculer_bilan_territoire, hocc, if_false]
  exact ⟨_, rfl, rfl⟩

/-- Counterexample for claim C3: with transfers of 70+70+70 percent out
of the car (210 percent total) on the initial territory data, the engine
returns a car distance of -7205/2 Mkm, which is negative and not 0; no
clamping or warning exists in calculer_2050. -/
theorem report_surengage_contre :
    ∃ res, calculer_2050 ⟨etat_initial.km_2025_territoire, etat_initial.parc_2025,
        etat_initial.parc_velo_2025, etat_initial.parc_bus_2025, etat_initial.emissions,
        ScenarioDict.full 0 70 70 70 0 (13 / 10) 3 97 15 85 5 95 0⟩ = Except.ok res ∧
      res.km_2050_territoire.voiture = -(7205 / 2) ∧ res.km_2050_territoire.voiture < 0 := by
  obtain ⟨res, h1, hkm, -, -, -, -⟩ := calculer_2050_aux etat_initial.km_2025_territoire
    etat_initial.parc_2025 etat_initial.parc_velo_2025 etat_initial.parc_bus_2025
    etat_initial.emissions 0 70 70 70 0 (13 / 10) 3 97 15 85 5 95 0
    (by norm_num [etat_initial]) (by norm_num)
  have hv : res.km_2050_territoire.voiture = -(7205 / 2) := by
    rw [hkm]
    norm_num [etat_initial]
  exact ⟨res, h1, hv, by rw [hv]; norm_num⟩

/-- Claim C3 as amended: when the cumulative transfer percentages out of
the car exceed 100 and the post-sobriety car distance is positive, the
resulting car distance is strictly negative; the engine performs no
clamping to 0 and surfaces no warning. -/
theorem report_surengage_negatif
    (km : KmDict) (parc : Parc2025) (pvelo : ParcVelo2025) (pbus : ParcBus2025)
    (em : Emissions8) (r rv rb rt ra tr pv pt pve pvc pbe pbt rp : ℚ)
    (hocc : parc.taux_occupation ≠ 0) (htr : tr ≠ 0)
    (hsur : 100 < rv + rb + rt) (hpos : 0 < km.voiture * (1 + r / 100)) :
    ∃ res, calculer_2050 ⟨km, parc, pvelo, pbus, em,
        ScenarioDict.full r rv rb rt ra tr pv pt pve pvc pbe pbt rp⟩ = Except.ok res ∧
      res.km_2050_territoire.voiture < 0 := by
  obtain ⟨res, h1, hkm, -, -, -, -⟩ := calculer_2050_aux km parc pvelo pbus em
    r rv rb rt ra tr pv pt pve pvc pbe pbt rp hocc htr
  refine ⟨res, h1, ?_⟩
  rw [hkm]
  dsimp only
  nlinarith [mul_pos hpos (show (0 : ℚ) < rv + rb + rt - 100 from by linarith)]

/-- Witness for the amended claim C3, at the initial territory data with
transfers 70+70+70 out of the car. -/
theorem report_surengage_negatif_temoin :
    ∃ res, calculer_2050 ⟨etat_initial.km_2025_territoire, etat_initial.parc_2025,
        etat_initial.parc_velo_2025, etat_initial.parc_bus_2025, etat_initial.emissions,
        ScenarioDict.full 0 70 70 70 20 (13 / 10) 3 97 15 85 5 95 0⟩ = Except.ok res ∧
      res.km_2050_territoire.voiture < 0 :=
  report_surengage_negatif etat_initial.km_2025_territoire etat_initial.parc_2025
    etat_initial.parc_velo_2025 etat_initial.parc_bus_2025 etat_initial.emissions
    0 70 70 70 20 (13 / 10) 3 97 15 85 5 95 0
    (by norm_num [etat_initial]) (by norm_num) (by norm_num) (by norm_num [etat_initial])

/-- Counterexample for claim C4: at the reference configuration (thermal
218 gCO2/km, electric 103 gCO2/km, 50/50 mix, 10 percent weight
reduction, occupancy 3/2) the per-Mkm car emission computed by
calculer_bilan_territoire is 9951/100 tonnes, which is not the value
(0.5 x 103 + 0.5 x 218 x 0.93) / 1.5 stated by the claim, because the
code multiplies the electric intensity by the weight-reduction factor as
well (src/app.py line 127). -/
theorem allegement_reference_contre :
    ∃ b, calculer_bilan_territoire ⟨1, 0, 0, 0, 0, 0⟩ ⟨218, 103, 0, 0, 0, 0, 0, 0, 0⟩
        ⟨50, 50, 3 / 2⟩ ⟨0, 0⟩ ⟨0, 0⟩ 10 = Except.ok b ∧
      b.detail_voiture = 9951 / 100 ∧
      (9951 / 100 : ℚ) ≠ ((1 / 2) * 103 + (1 / 2) * (218 * (93 / 100))) / (3 / 2) := by
  obtain ⟨b, h1, hd⟩ := calculer_bilan_territoire_aux ⟨1, 0, 0, 0, 0, 0⟩
    ⟨218, 103, 0, 0, 0, 0, 0, 0, 0⟩ ⟨50, 50, 3 / 2⟩ ⟨0, 0⟩ ⟨0, 0⟩ 10 (by norm_num)
  refine ⟨b, h1, ?_, by norm_num⟩
  rw [hd]
  norm_num

/-- Claim C4 as amended: in the reference configuration the weight
reduction factor 1 - (10 x 0.7 / 100) scales both the thermal and the
electric intensity before blending, and the blend is divided by the
occupancy rate 3/2: the car CO2 detail equals the car distance times
(0.5 x 218 x 0.93 + 0.5 x 103 x 0.93) / 1.5. -/
theorem allegement_thermique_et_electrique (kmv : ℚ) :
    ∃ b, calculer_bilan_territoire ⟨kmv, 0, 0, 0, 0, 0⟩ ⟨218, 103, 0, 0, 0, 0, 0, 0, 0⟩
        ⟨50, 50, 3 / 2⟩ ⟨0, 0⟩ ⟨0, 0⟩ 10 = Except.ok b ∧
      b.detail_voiture =
        kmv * ((50 / 100 * (218 * (1 - 10 * (7 / 10) / 100)) +
          50 / 100 * (103 * (1 - 10 * (7 / 10) / 100))) / (3 / 2)) := by
  obtain ⟨b, h1, hd⟩ := calculer_bilan_territoire_aux ⟨kmv, 0, 0, 0, 0, 0⟩
    ⟨218, 103, 0, 0, 0, 0, 0, 0, 0⟩ ⟨50, 50, 3 / 2⟩ ⟨0, 0⟩ ⟨0, 0⟩ 10 (by norm_num)
  refine ⟨b, h1, ?_⟩
  rw [hd]
  dsimp only
  ring

/-- Counterexample for claim C5: with car fleet shares 60 (thermal) and
30 (electric), which sum to 90 and not 100, calculer_2050 raises no
error and returns a result whose car CO2 uses the shares exactly as
given; no InvalidShareSum or InvalidFleetMix rejection exists in the
code. -/
theorem validation_parts_contre :
    ∃ res, calculer_2050 ⟨etat_initial.km_2025_territoire, etat_initial.parc_2025,
        etat_initial.parc_velo_2025, etat_initial.parc_bus_2025, etat_initial.emissions,
        ScenarioDict.full 0 0 0 0 0 (13 / 10) 30 60 15 85 5 95 0⟩ = Except.ok res ∧
      res.bilan_2050.detail_voiture =
        3275 * ((60 / 100 * 218 + 30 / 100 * 103) / (13 / 10)) := by
  obtain ⟨res, h1, -, -, -, -, hd⟩ := calculer_2050_aux etat_initial.km_2025_territoire
    etat_initial.parc_2025 etat_initial.parc_velo_2025 etat_initial.parc_bus_2025
    etat_initial.emissions 0 0 0 0 0 (13 / 10) 30 60 15 85 5 95 0
    (by norm_num [etat_initial]) (by norm_num)
  refine ⟨res, h1, ?_⟩
  rw [hd]
  norm_num [etat_initial]

/-- Claim C5 as amended: the engine performs no fleet-mix share-sum
validation.  Even when the car shares do not sum to 100 it completes
normally and blends the emission intensities with the shares exactly as
given (part_thermique/100 and part_ve/100), without normalizing them. -/
theorem validation_parts_absente
    (km : KmDict) (parc : Parc2025) (pvelo : ParcVelo2025) (pbus : ParcBus2025)
    (em : Emissions8) (r rv rb rt ra tr pv pt pve pvc pbe pbt rp : ℚ)
    (hocc : parc.taux_occupation ≠ 0) (htr : tr ≠ 0) (hne : pt + pv ≠ 100) :
    ∃ res, calculer_2050 ⟨km, parc, pvelo, pbus, em,
        ScenarioDict.full r rv rb rt ra tr pv pt pve pvc pbe pbt rp⟩ = Except.ok res ∧
      res.bilan_2050.detail_voiture =
        (km.voiture * (1 + r / 100) - km.voiture * (1 + r / 100) * rv / 100 -
            km.voiture * (1 + r / 100) * rb / 100 - km.voiture * (1 + r / 100) * rt / 100) *
            1000000 *
            ((pt / 100 * (parc.emission_thermique * (1 - rp * (7 / 10) / 100)) +
              pv / 100 * (em.voiture_electrique * (1 - rp * (7 / 10) / 100))) / tr) /
            1000 / 1000 := by
  obtain ⟨res, h1, -, -, -, -, hd⟩ := calculer_2050_aux km parc pvelo pbus em
    r rv rb rt ra tr pv pt pve pvc pbe pbt rp hocc htr
  exact ⟨res, h1, hd⟩

/-- Witness for the amended claim C5, with car shares 70 and 20 (sum 90)
on the initial territory data: the engine completes and the car CO2 uses
the shares 70/100 and 20/100 as given. -/
theorem validation_parts_absente_temoin :
    ∃ res, calculer_2050 ⟨etat_initial.km_2025_territoire, etat_initial.parc_2025,
        etat_initial.parc_velo_2025, etat_initial.parc_bus_2025, etat_initial.emissions,
        ScenarioDict.full 0 0 0 0 0 (13 / 10) 20 70 15 85 5 95 0⟩ = Except.ok res ∧
      res.bilan_2050.detail_voiture =
        3275 * ((70 / 100 * 218 + 20 / 100 * 103) / (13 / 10)) := by
  obtain ⟨res, h1, hd⟩ := validation_parts_absente etat_initial.km_2025_territoire
    etat_initial.parc_2025 etat_initial.parc_velo_2025 etat_initial.parc_bus_2025
    etat_initial.emissions 0 0 0 0 0 (13 / 10) 20 70 15 85 5 95 0
    (by norm_num [etat_initial]) (by norm_num) (by norm_num)
  refine ⟨res, h1, ?_⟩
  rw [hd]
  norm_num [etat_initial]

/-- Claim C6: when every baseline distance is nonnegative and the total
baseline distance is 0, every modal share is 0 (calculer_parts_modales
returns the all-zero dictionary rather than dividing by zero) and
calculer_2050 returns a result whose 2050 shares are all 0 and whose
reduction percentage is 0 rather than a division by zero. -/
theorem base_zero_parts_et_reduction
    (km : KmDict) (parc : Parc2025) (pvelo : ParcVelo2025) (pbus : ParcBus2025)
    (em : Emissions8) (r rv rb rt ra tr pv pt pve pvc pbe pbt rp : ℚ)
    (hv : 0 ≤ km.voiture) (hb : 0 ≤ km.bus) (ht : 0 ≤ km.train) (hve : 0 ≤ km.velo)
    (ha : 0 ≤ km.avion) (hm : 0 ≤ km.marche)
    (hzero : km.voiture + km.bus + km.train + km.velo + km.avion + km.marche = 0)
    (hocc : parc.taux_occupation ≠ 0) (htr : tr ≠ 0) :
    calculer_parts_modales km = ⟨0, 0, 0, 0, 0, 0⟩ ∧
    ∃ res, calculer_2050 ⟨km, parc, pvelo, pbus, em,
        ScenarioDict.full r rv rb rt ra tr pv pt pve pvc pbe pbt rp⟩ = Except.ok res ∧
      res.parts_2050 = ⟨0, 0, 0, 0, 0, 0⟩ ∧ res.reduction_pct = 0 := by
  obtain ⟨V, B, T, Ve, A, M⟩ := km
  dsimp only at hv hb ht hve ha hm hzero
  have hV0 : V = 0 := by linarith
  have hB0 : B = 0 := by linarith
  have hT0 : T = 0 := by linarith
  have hVe0 : Ve = 0 := by linarith
  have hA0 : A = 0 := by linarith
  have hM0 : M = 0 := by linarith
  subst hV0 hB0 hT0 hVe0 hA0 hM0
  constructor
  · simp [calculer_parts_modales, KmDict.total]
  · simp only [calculer_2050, dictGet, ScenarioDict.full, Except.bind,
      calculer_bilan_territoire, emissions_avec_thermique, hocc, htr, if_false, KmDict.total]
    refine ⟨_, rfl, ?_, ?_⟩
    · simp [calculer_parts_modales, KmDict.total]
    · norm_num

/-- Witness for claim C6: the all-zero baseline with the default levers
of the initial session state. -/
theorem base_zero_parts_et_reduction_temoin :
    calculer_parts_modales ⟨0, 0, 0, 0, 0, 0⟩ = ⟨0, 0, 0, 0, 0, 0⟩ ∧
    ∃ res, calculer_2050 ⟨⟨0, 0, 0, 0, 0, 0⟩, etat_initial.parc_2025,
        etat_initial.parc_velo_2025, etat_initial.parc_bus_2025, etat_initial.emissions,
        ScenarioDict.full 0 0 0 0 0 (13 / 10) 3 97 15 85 5 95 0⟩ = Except.ok res ∧
      res.parts_2050 = ⟨0, 0, 0, 0, 0, 0⟩ ∧ res.reduction_pct = 0 :=
  base_zero_parts_et_reduction ⟨0, 0, 0, 0, 0, 0⟩ etat_initial.parc_2025
    etat_initial.parc_velo_2025 etat_initial.parc_bus_2025 etat_initial.emissions
    0 0 0 0 0 (13 / 10) 3 97 15 85 5 95 0
    (by norm_num) (by norm_num) (by norm_num) (by norm_num) (by norm_num) (by norm_num)
    (by norm_num) (by norm_num [etat_initial]) (by norm_num)

/-- Counterexample for claim C7: with an occupancy rate of 0 the
territory-balance computation is not guarded; the division on src/app.py
line 136 raises ZeroDivisionError (modelled as the error value), so no
defined result is returned. -/
theorem taux_occupation_zero_contre :
    calculer_bilan_territoire ⟨3275, 55, 210, 140, 900, 70⟩
        ⟨218, 103, 127, 25, 51 / 10, 22, 5, 225, 0⟩ ⟨97, 3, 0⟩ ⟨15, 85⟩ ⟨95, 5⟩ 0 =
      Except.error PyError.zeroDivisionError := by
  simp [calculer_bilan_territoire]

/-- Claim C7 as amended: for every input whose occupancy rate is 0,
calculer_bilan_territoire raises ZeroDivisionError at the division by
taux_occupation; there is no guard and no defined result. -/
theorem taux_occupation_zero_division
    (km : KmDict) (em : EmissionsParc) (pc : ParcConfig) (pvc : ParcVeloConfig)
    (pbc : ParcBusConfig) (rp : ℚ) (h : pc.taux_occupation = 0) :
    calculer_bilan_territoire km em pc pvc pbc rp = Except.error PyError.zeroDivisionError := by
  simp [calculer_bilan_territoire, h]

/-- Witness for the amended claim C7 at a concrete input with occupancy
rate 0. -/
theorem taux_occupation_zero_division_temoin :
    calculer_bilan_territoire ⟨1, 1, 1, 1, 1, 1⟩ ⟨218, 103, 127, 25, 51 / 10, 22, 5, 225, 0⟩
        ⟨97, 3, 0⟩ ⟨15, 85⟩ ⟨95, 5⟩ 0 = Except.error PyError.zeroDivisionError :=
  taux_occupation_zero_division ⟨1, 1, 1, 1, 1, 1⟩ ⟨218, 103, 127, 25, 51 / 10, 22, 5, 225, 0⟩
    ⟨97, 3, 0⟩ ⟨15, 85⟩ ⟨95, 5⟩ 0 rfl

set_option maxHeartbeats 4000000 in
/-- Claim C8: with a fixed baseline (nonnegative distances, positive
total), fixed nonnegative fleet-mix shares and emission factors, valid
transfer percentages and a positive occupancy, lowering reduction_km
(more negative sobriety) strictly decreases the total 2050 distance and
weakly decreases the total 2050 CO2 emissions. -/
theorem monotonie_sobriete
    (km : KmDict) (parc : Parc2025) (pvelo : ParcVelo2025) (pbus : ParcBus2025)
    (em : Emissions8) (r1 r2 rv rb rt ra tr pv pt pve pvc pbe pbt rp : ℚ)
    (hocc : parc.taux_occupation ≠ 0) (htr : 0 < tr)
    (hV : 0 ≤ km.voiture) (hB : 0 ≤ km.bus) (hT : 0 ≤ km.train) (hVe : 0 ≤ km.velo)
    (hA : 0 ≤ km.avion) (hM : 0 ≤ km.marche)
    (htot : 0 < km.voiture + km.bus + km.train + km.velo + km.avion + km.marche)
    (hrv : 0 ≤ rv) (hrb : 0 ≤ rb) (hrt : 0 ≤ rt) (hra : 0 ≤ ra)
    (hsum : rv + rb + rt ≤ 100) (hra100 : ra ≤ 100)
    (hpt : 0 ≤ pt) (hpv : 0 ≤ pv) (hpve : 0 ≤ pve) (hpvc : 0 ≤ pvc)
    (hpbe : 0 ≤ pbe) (hpbt : 0 ≤ pbt)
    (heth : 0 ≤ parc.emission_thermique) (heel : 0 ≤ em.voiture_electrique)
    (hebt : 0 ≤ em.bus_thermique) (hebe : 0 ≤ em.bus_electrique)
    (hetr : 0 ≤ em.train) (heve : 0 ≤ em.velo_elec) (hevc : 0 ≤ em.velo_classique)
    (heav : 0 ≤ em.avion) (hema : 0 ≤ em.marche)
    (hrp0 : 0 ≤ rp) (hrp100 : rp ≤ 100)
    (hr : r1 < r2) :
    ∃ res1 res2,
      calculer_2050 ⟨km, parc, pvelo, pbus, em,
        ScenarioDict.full r1 rv rb rt ra tr pv pt pve pvc pbe pbt rp⟩ = Except.ok res1 ∧
      calculer_2050 ⟨km, parc, pvelo, pbus, em,
        ScenarioDict.full r2 rv rb rt ra tr pv pt pve pvc pbe pbt rp⟩ = Except.ok res2 ∧
      res1.bilan_2050.km_total_territoire < res2.bilan_2050.km_total_territoire ∧
      res1.bilan_2050.co2_total_territoire ≤ res2.bilan_2050.co2_total_territoire := by
  obtain ⟨res1, h1, -, -, hkm1, hco1, -⟩ := calculer_2050_aux km parc pvelo pbus em
    r1 rv rb rt ra tr pv pt pve pvc pbe pbt rp hocc (ne_of_gt htr)
  obtain ⟨res2, h2, -, -, hkm2, hco2, -⟩ := calculer_2050_aux km parc pvelo pbus em
    r2 rv rb rt ra tr pv pt pve pvc pbe pbt rp hocc (ne_of_gt htr)
  refine ⟨res1, res2, h1, h2, ?_, ?_⟩
  · rw [hkm1, hkm2]
    linarith [mul_pos htot (show (0 : ℚ) < (r2 - r1) / 100 from by linarith)]
  · rw [hco1, hco2]
    have hfa : (0 : ℚ) ≤ 1 - rp * (7 / 10) / 100 := by linarith
    have hcV : (0 : ℚ) ≤
        (pt / 100 * (parc.emission_thermique * (1 - rp * (7 / 10) / 100)) +
          pv / 100 * (em.voiture_electrique * (1 - rp * (7 / 10) / 100))) / tr :=
      div_nonneg (add_nonneg
        (mul_nonneg (div_nonneg hpt (by norm_num)) (mul_nonneg heth hfa))
        (mul_nonneg (div_nonneg hpv (by norm_num)) (mul_nonneg heel hfa))) htr.le
    have hcB : (0 : ℚ) ≤ pbt / 100 * em.bus_thermique + pbe / 100 * em.bus_electrique :=
      add_nonneg (mul_nonneg (div_nonneg hpbt (by norm_num)) hebt)
        (mul_nonneg (div_nonneg hpbe (by norm_num)) hebe)
    have hcVe : (0 : ℚ) ≤ pve / 100 * em.velo_elec + pvc / 100 * em.velo_classique :=
      add_nonneg (mul_nonneg (div_nonneg hpve (by norm_num)) heve)
        (mul_nonneg (div_nonneg hpvc (by norm_num)) hevc)
    have hgV : (0 : ℚ) ≤
        km.voiture - km.voiture * rv / 100 - km.voiture * rb / 100 - km.voiture * rt / 100 := by
      nlinarith [mul_nonneg hV (show (0 : ℚ) ≤ 100 - (rv + rb + rt) from by linarith)]
    have hgB : (0 : ℚ) ≤ km.bus + km.voiture * rb / 100 :=
      add_nonneg hB (div_nonneg (mul_nonneg hV hrb) (by norm_num))
    have hgT : (0 : ℚ) ≤ km.train + km.voiture * rt / 100 + km.avion * ra / 100 :=
      add_nonneg (add_nonneg hT (div_nonneg (mul_nonneg hV hrt) (by norm_num)))
        (div_nonneg (mul_nonneg hA hra) (by norm_num))
    have hgVe : (0 : ℚ) ≤ km.velo + km.voiture * rv / 100 :=
      add_nonneg hVe (div_nonneg (mul_nonneg hV hrv) (by norm_num))
    have hgA : (0 : ℚ) ≤ km.avion - km.avion * ra / 100 := by
      nlinarith [mul_nonneg hA (show (0 : ℚ) ≤ 100 - ra from by linarith)]
    have hC : (0 : ℚ) ≤
        (km.voiture - km.voiture * rv / 100 - km.voiture * rb / 100 - km.voiture * rt / 100) *
          ((pt / 100 * (parc.emission_thermique * (1 - rp * (7 / 10) / 100)) +
            pv / 100 * (em.voiture_electrique * (1 - rp * (7 / 10) / 100))) / tr) +
        (km.bus + km.voiture * rb / 100) *
          (pbt / 100 * em.bus_thermique + pbe / 100 * em.bus_electrique) +
        (km.train + km.voiture * rt / 100 + km.avion * ra / 100) * em.train +
        (km.velo + km.voiture * rv / 100) *
          (pve / 100 * em.velo_elec + pvc / 100 * em.velo_classique) +
        (km.avion - km.avion * ra / 100) * em.avion +
        km.marche * em.marche :=
      add_nonneg (add_nonneg (add_nonneg (add_nonneg (add_nonneg
        (mul_nonneg hgV hcV) (mul_nonneg hgB hcB)) (mul_nonneg hgT hetr))
        (mul_nonneg hgVe hcVe)) (mul_nonneg hgA heav)) (mul_nonneg hM hema)
    linarith [mul_le_mul_of_nonneg_right
      (show (1 + r1 / 100 : ℚ) ≤ 1 + r2 / 100 from by linarith) hC]

/-- Witness for claim C8: the initial territory data with the levers of
the reference exercise; lowering reduction_km from 0 to -30 strictly
decreases the 2050 total distance and weakly decreases the CO2 total. -/
theorem monotonie_sobriete_temoin :
    ∃ res1 res2,
      calculer_2050 ⟨etat_initial.km_2025_territoire, etat_initial.parc_2025,
        etat_initial.parc_velo_2025, etat_initial.parc_bus_2025, etat_initial.emissions,
        ScenarioDict.full (-30) 10 10 10 20 (3 / 2) 50 50 50 50 50 50 10⟩ = Except.ok res1 ∧
      calculer_2050 ⟨etat_initial.km_2025_territoire, etat_initial.parc_2025,
        etat_initial.parc_velo_2025, etat_initial.parc_bus_2025, etat_initial.emissions,
        ScenarioDict.full 0 10 10 10 20 (3 / 2) 50 50 50 50 50 50 10⟩ = Except.ok res2 ∧
      res1.bilan_2050.km_total_territoire < res2.bilan_2050.km_total_territoire ∧
      res1.bilan_2050.co2_total_territoire ≤ res2.bilan_2050.co2_total_territoire :=
  monotonie_sobriete etat_initial.km_2025_territoire etat_initial.parc_2025
    etat_initial.parc_velo_2025 etat_initial.parc_bus_2025 etat_initial.emissions
    (-30) 0 10 10 10 20 (3 / 2) 50 50 50 50 50 50 10
    (by norm_num [etat_initial]) (by norm_num)
    (by norm_num [etat_initial]) (by norm_num [etat_initial]) (by norm_num [etat_initial])
    (by norm_num [etat_initial]) (by norm_num [etat_initial]) (by norm_num [etat_initial])
    (by norm_num [etat_initial])
    (by norm_num) (by norm_num) (by norm_num) (by norm_num) (by norm_num) (by norm_num)
    (by norm_num) (by norm_num) (by norm_num) (by norm_num) (by norm_num) (by norm_num)
    (by norm_num [etat_initial]) (by norm_num [etat_initial]) (by norm_num [etat_initial])
    (by norm_num [etat_initial]) (by norm_num [etat_initial]) (by norm_num [etat_initial])
    (by norm_num [etat_initial]) (by norm_num [etat_initial]) (by norm_num [etat_initial])
    (by norm_num) (by norm_num) (by norm_num)

/-- Claim C9 (code bug): the first waterfall invocation, which enables
only the car electrification levers on top of scenario_ref, raises
KeyError for part_bus_elec inside calculer_2050, because the
scenario_ref dictionary literal (src/app.py lines 931-943) omits the
part_bus_elec and part_bus_thermique keys that calculer_2050 reads on
lines 223-224; that invocation therefore never returns a CO2
total. -/
theorem cascade_cle_bus_manquante (s : SessionState) (pv pt : ℚ) :
    (calculer_scenario_partiel s (modifications_elec_voiture pv pt)).2 =
      Except.error (PyError.keyError "part_bus_elec") := rfl

/-- Claim C10: whenever calculer_scenario_partiel returns normally (the
internal calculer_2050 call does not raise), the session state after the
call equals the session state before it: the temporary scenario
dictionary is installed only for the duration of the internal call and
then restored. -/
theorem scenario_restaure_apres_partiel (s : SessionState) (modifications : ScenarioDict)
    (q : ℚ) (h : (calculer_scenario_partiel s modifications).2 = Except.ok q) :
    (calculer_scenario_partiel s modifications).1 = s := by
  simp only [calculer_scenario_partiel] at h ⊢
  generalize hg : calculer_2050
    { s with scenario_levers := (scenario_ref s).update modifications } = z at h ⊢
  cases z with
  | error e => simp at h
  | ok resultats_temp => rfl

/-- Witness for claim C10: a concrete session state and a modification
dictionary that supplies the two bus keys, so the internal calculer_2050
call succeeds; the call returns the CO2 total 0 and the session scenario
dictionary is restored. -/
theorem scenario_restaure_apres_partiel_temoin :
    (calculer_scenario_partiel
        ⟨⟨0, 0, 0, 0, 0, 0⟩, ⟨0, 100, 1, 1, 0⟩, ⟨0, 100, 0, 0⟩, ⟨0, 100, 0, 0⟩,
          ⟨0, 0, 0, 0, 0, 0, 0, 0⟩, ScenarioDict.full 0 0 0 0 0 1 0 100 0 100 0 100 0⟩
        ⟨none, none, none, none, none, none, none, none, none, none,
          some 0, some 100, none⟩).2 = Except.ok 0 ∧
    (calculer_scenario_partiel
        ⟨⟨0, 0, 0, 0, 0, 0⟩, ⟨0, 100, 1, 1, 0⟩, ⟨0, 100, 0, 0⟩, ⟨0, 100, 0, 0⟩,
          ⟨0, 0, 0, 0, 0, 0, 0, 0⟩, ScenarioDict.full 0 0 0 0 0 1 0 100 0 100 0 100 0⟩
        ⟨none, none, none, none, none, none, none, none, none, none,
          some 0, some 100, none⟩).1 =
      ⟨⟨0, 0, 0, 0, 0, 0⟩, ⟨0, 100, 1, 1, 0⟩, ⟨0, 100, 0, 0⟩, ⟨0, 100, 0, 0⟩,
        ⟨0, 0, 0, 0, 0, 0, 0, 0⟩, ScenarioDict.full 0 0 0 0 0 1 0 100 0 100 0 100 0⟩ := by
  have h : (calculer_scenario_partiel
      ⟨⟨0, 0, 0, 0, 0, 0⟩, ⟨0, 100, 1, 1, 0⟩, ⟨0, 100, 0, 0⟩, ⟨0, 100, 0, 0⟩,
        ⟨0, 0, 0, 0, 0, 0, 0, 0⟩, ScenarioDict.full 0 0 0 0 0 1 0 100 0 100 0 100 0⟩
      ⟨none, none, none, none, none, none, none, none, none, none,
        some 0, some 100, none⟩).2 = Except.ok 0 := by
    simp only [calculer_scenario_partiel, scenario_ref, ScenarioDict.update, dictUpdateKey,
      calculer_2050, dictGet, Except.bind, calculer_bilan_territoire, emissions_avec_thermique,
      KmDict.total, show (1 : ℚ) ≠ 0 from by norm_num, if_false]
    norm_num
  exact ⟨h, scenario_restaure_apres_partiel _ _ 0 h⟩

/-- Evaluation of claim C9 at the initial session state with the default
car electrification shares: the first waterfall invocation fails with
KeyError on part_bus_elec. -/
theorem cascade_cle_bus_manquante_temoin :
    (calculer_scenario_partiel etat_initial (modifications_elec_voiture 3 97)).2 =
      Except.error (PyError.keyError "part_bus_elec") := rfl
